import Mathlib

/-!
Verification of the clip-wave trim engine (src/src-tauri/src/main.rs).

Shallow embedding conventions:
* Rust `f64` times and sizes are modelled as `ℚ` / `ℕ`; every arithmetic
  operation the claims touch (comparison, subtraction, thresholds) is exact
  on the modelled values.
* Filesystem, subprocess and clock effects are passed in explicitly as
  oracle fields of environment structures; the pure control flow and
  argument construction are translated from the source.
* Rust's stable `sort_by` is modelled by `List.insertionSort`, which is
  stable, hence extensionally the same function on every input.
* The standard-library `str::parse::<f64>` call used for the seconds field
  is passed in as an oracle `String → Option ℚ` restricted to the finite
  decimal values representable in the rational model.
-/

/- ===== RotationDetector (src/src-tauri/src/main.rs:358-378) ===== -/

/-- Embeds `normalize_rotation_degrees` (main.rs:358).  Rust `%` on `i32` is
truncated remainder, i.e. `Int.tmod`; the source then adds 360 to a negative
remainder and keeps only the four canonical values. -/
def normalize_rotation_degrees (deg : Int) : Int :=
  let d0 := deg.tmod 360
  let d := if d0 < 0 then d0 + 360 else d0
  if d = 0 then d
  else if d = 90 then d
  else if d = 180 then d
  else if d = 270 then d
  else 0

/-- Embeds `rotation_filter_for_degrees` (main.rs:369). -/
def rotation_filter_for_degrees (deg : Int) : Option String :=
  let d := normalize_rotation_degrees deg
  if d = 90 then some "transpose=2"
  else if d = 180 then some "hflip,vflip"
  else if d = 270 then some "transpose=1"
  else none

/-- Spec-side definition, used only to compare against the code: the spec
says rotation is normalised "to the nearest of {0,90,180,270}".  This picks
the member of that set minimising the absolute distance to the raw value
(first wins on ties, which is irrelevant to the counterexample). -/
def nearest_canonical_rotation (deg : Int) : Int :=
  [(0 : Int), 90, 180, 270].foldl
    (fun best c => if |deg - c| < |deg - best| then c else best) 0

/- ===== Stream classification (src/src-tauri/src/main.rs:758-835) ===== -/

/-- One stream object as decoded from the inspector's JSON, with exactly the
fields `parse_streams_from_ffprobe_json` reads (`index`, `codec_type`,
`codec_name`, `channels`, `tags.language`, `tags.title`, the latter four
already defaulted the way the source defaults missing JSON fields). -/
structure RawStream where
  index : Int
  codec_type : String
  codec_name : String
  channels : Option Int
  language : String
  title : String
deriving Repr, DecidableEq

/-- Mirror of the Rust `AudioStreamInfo` fields used by the core. -/
structure AudioStreamInfo where
  order : Int
  index : Int
  codec_name : String
  channels : Option Int
  language : String
  title : String
deriving Repr, DecidableEq

/-- Mirror of the Rust `SubtitleStreamInfo` fields used by the core. -/
structure SubtitleStreamInfo where
  order : Int
  index : Int
  codec_name : String
  language : String
  title : String
deriving Repr, DecidableEq

/-- Embeds `parse_streams_from_ffprobe_json` (main.rs:758) from the point
where the JSON stream array has been decoded into `RawStream` records:
partition by `codec_type`, keep a stable order, sort each partition by raw
global `index`, then assign dense 0-based per-type `order` values. -/
def parse_streams_from_ffprobe_json (streams : List RawStream) :
    List AudioStreamInfo × List SubtitleStreamInfo :=
  let audio0 := (streams.filter (fun s => s.codec_type == "audio")).map
    (fun s => AudioStreamInfo.mk 0 s.index s.codec_name s.channels s.language s.title)
  let subs0 := (streams.filter (fun s => s.codec_type == "subtitle")).map
    (fun s => SubtitleStreamInfo.mk 0 s.index s.codec_name s.language s.title)
  let audioSorted := List.insertionSort (fun a b => a.index ≤ b.index) audio0
  let subsSorted := List.insertionSort (fun a b => a.index ≤ b.index) subs0
  (audioSorted.enum.map (fun p => { p.2 with order := (p.1 : Int) }),
   subsSorted.enum.map (fun p => { p.2 with order := (p.1 : Int) }))

/- ===== Time parsing and formatting (main.rs:194-223, 2348-2350) ===== -/

/-- Embeds the zero padding performed by Rust's fixed-width numeric
formatting of the fractional digits. -/
def zero_pad_left (width : Nat) (s : String) : String :=
  String.mk (List.replicate (width - s.length) '0') ++ s

/-- Embeds Rust `format!("\x7b:.Nd\x7d", x)` on the nonnegative rationals the
trim engine formats (times on the millisecond grid and their differences):
scale, round, and print with exactly `decimals` fractional digits. -/
def format_fixed (decimals : Nat) (x : ℚ) : String :=
  let p : Int := (10 : Int) ^ decimals
  let scaled : Int := ⌊x * (p : ℚ) + 1/2⌋
  toString (scaled / p) ++ "." ++ zero_pad_left decimals (toString (scaled % p).toNat)

/-- Six-decimal rendering used for `-ss` and `-t` (main.rs:2348-2350). -/
def format_fixed6 (x : ℚ) : String := format_fixed 6 x

/-- Structural model of Rust `str::split(':')` on the character list: split
at every colon, keeping empty segments, with [""] for the empty string. -/
def split_char (c : Char) : List Char → List (List Char)
  | [] => [[]]
  | x :: xs =>
    let rest := split_char c xs
    if x = c then [] :: rest
    else
      match rest with
      | r :: rs => (x :: r) :: rs
      | [] => [[x]]

/-- Rust `input.split(':')` as a list of strings. -/
def rust_split_colon (s : String) : List String :=
  (split_char ':' s.data).map String.mk

/-- Model of Rust `str::parse::<u64>` restricted to the all-digit strings
the time parser has already validated: the decimal value, or `none` past
the u64 range (Rust then reports an overflow parse error). -/
def parse_u64_digits (s : String) : Option Nat :=
  let n := s.data.foldl (fun acc c => acc * 10 + (c.toNat - '0'.toNat)) 0
  if n < 2 ^ 64 then some n else none

/-- Structural model of Rust `str::trim`: drop leading and trailing
whitespace characters (the mode and stderr strings involved are ASCII,
where Rust's and this definition's whitespace predicates agree). -/
def rust_trim (s : String) : String :=
  String.mk (((s.data.dropWhile Char.isWhitespace).reverse.dropWhile
    Char.isWhitespace).reverse)

/-- Structural model of Rust `str::to_lowercase` after `trim`, lowercasing
character by character (identical to Rust on the ASCII mode strings the
trim engine compares against). -/
def rust_trim_lowercase (s : String) : String :=
  String.mk ((rust_trim s).data.map Char.toLower)

/-- Embeds `parse_hh_mm_ss_with_millis` (main.rs:194).  `parse_f64` is the
oracle for the standard library's `str::parse::<f64>` on the seconds field;
`parse_u64_digits` models `str::parse::<u64>` on the digit-checked hour and
minute fields. -/
def parse_hh_mm_ss_with_millis (parse_f64 : String → Option ℚ) (input : String) :
    Except String ℚ :=
  match rust_split_colon input with
  | [h, m, s_with_millis] =>
    if h.data.isEmpty ∨ ¬(h.data.all Char.isDigit) then
      .error "Invalid hours"
    else if m.length ≠ 2 ∨ ¬(m.data.all Char.isDigit) then
      .error "Invalid minutes (must be 2 digits)"
    else
      match parse_f64 s_with_millis with
      | none => .error "Invalid seconds"
      | some seconds =>
        match parse_u64_digits h with
        | none => .error "Invalid hours"
        | some hours =>
          match parse_u64_digits m with
          | none => .error "Invalid minutes"
          | some minutes =>
            if minutes ≥ 60 ∨ seconds ≥ 60 ∨ seconds < 0 then
              .error "Minutes and seconds must be < 60"
            else
              .ok ((hours : ℚ) * 3600 + (minutes : ℚ) * 60 + seconds)
  | _ => .error "Time must be in format hh:mm:ss or hh:mm:ss.milliseconds"

/- ===== ProbeCache (src/src-tauri/src/main.rs:706-742, 1162-1186, 1413-1437) ===== -/

/-- Mirror of the Rust `CachedProbeResult` record (main.rs:707). -/
structure CachedProbeResult where
  input_path : String
  has_duration : Bool
  has_tracks : Bool
  has_subtitles : Bool
  duration_seconds : Option ℚ
  audio_streams : List AudioStreamInfo
  subtitle_streams : List SubtitleStreamInfo
  ffmpeg_bin_dir_used : String
  ffprobe_path : String
  ffprobe_args : List String
  ffprobe_runner : String
  cwd : String
deriving Repr, DecidableEq

/-- Mirror of the Rust `DurationProbeResult` payload fields that feed the
cache update (timing diagnostics and the spawn-debug record carry wall-clock
data and are not modelled). -/
structure DurationProbeResult where
  input_path : String
  duration_seconds : Option ℚ
  ffmpeg_bin_dir_used : String
  ffprobe_path : String
  ffprobe_args : List String
  ffprobe_runner : String
  cwd : String
deriving Repr, DecidableEq

/-- Embeds the cache merge at the end of `probe_duration` (main.rs:1162-1186):
`entry(cache_key).or_insert(blank record)` followed by the duration-field
assignments.  The track lists and their flags are not touched. -/
def probe_duration_cache_update (entry : Option CachedProbeResult)
    (r : DurationProbeResult) : CachedProbeResult :=
  let e := entry.getD
    { input_path := r.input_path, has_duration := false, has_tracks := false,
      has_subtitles := false, duration_seconds := none, audio_streams := [],
      subtitle_streams := [], ffmpeg_bin_dir_used := r.ffmpeg_bin_dir_used,
      ffprobe_path := r.ffprobe_path, ffprobe_args := r.ffprobe_args,
      ffprobe_runner := r.ffprobe_runner, cwd := r.cwd }
  { e with
    input_path := r.input_path,
    has_duration := r.duration_seconds.isSome,
    duration_seconds := r.duration_seconds,
    ffmpeg_bin_dir_used := r.ffmpeg_bin_dir_used,
    ffprobe_path := r.ffprobe_path,
    ffprobe_args := r.ffprobe_args,
    ffprobe_runner := r.ffprobe_runner,
    cwd := r.cwd }

/-- Embeds the cache merge at the end of `probe_tracks` (main.rs:1413-1437):
`entry(cache_key).or_insert(blank record)` followed by the track-field
assignments.  `duration_seconds` and `has_duration` are not touched. -/
def probe_tracks_cache_update (entry : Option CachedProbeResult)
    (input_path : String) (audio : List AudioStreamInfo)
    (subs : List SubtitleStreamInfo)
    (ffmpeg_bin_dir_used ffprobe_path cwd : String) : CachedProbeResult :=
  let e := entry.getD
    { input_path := input_path, has_duration := false, has_tracks := false,
      has_subtitles := false, duration_seconds := none, audio_streams := [],
      subtitle_streams := [], ffmpeg_bin_dir_used := ffmpeg_bin_dir_used,
      ffprobe_path := ffprobe_path, ffprobe_args := [],
      ffprobe_runner := "direct", cwd := cwd }
  { e with
    audio_streams := audio,
    subtitle_streams := subs,
    has_tracks := true,
    has_subtitles := true,
    ffmpeg_bin_dir_used := ffmpeg_bin_dir_used,
    ffprobe_path := ffprobe_path,
    ffprobe_runner := "direct",
    cwd := cwd }

/- ===== probe_duration front end (src/src-tauri/src/main.rs:880-921) ===== -/

/-- Environment oracles for one `probe_duration` call: the process-wide cache
contents, the fingerprint key computed by `probe_cache_key_best_effort`
(filesystem metadata), the outcomes of the two validation checks
(`none` = check passed, `some msg` = the error it returns), and the outcome
of the whole spawn-and-parse path taken on a cache miss. -/
structure DurationProbeEnv where
  cache : String → Option CachedProbeResult
  cache_key : String
  input_check : Option String
  bin_check : Option String
  fresh : Except String DurationProbeResult

/-- Embeds the cache-miss continuation of `probe_duration` (main.rs:919 on):
validation first (`ensure_input_file_exists`, then
`validate_ffmpeg_bin_dir`), then the probing path. -/
def probe_duration_uncached (env : DurationProbeEnv) : Except String DurationProbeResult :=
  match env.input_check with
  | some e => .error e
  | none =>
    match env.bin_check with
    | some e => .error e
    | none => env.fresh

/-- Embeds the front end of `probe_duration` (main.rs:880-921): a cache hit
whose entry has `has_duration` set returns the cached fields immediately,
before either validation check runs; anything else falls through to the
validated probing path. -/
def probe_duration (env : DurationProbeEnv) : Except String DurationProbeResult :=
  match env.cache env.cache_key with
  | some cached =>
    if cached.has_duration then
      .ok { input_path := cached.input_path,
            duration_seconds := cached.duration_seconds,
            ffmpeg_bin_dir_used := cached.ffmpeg_bin_dir_used,
            ffprobe_path := cached.ffprobe_path,
            ffprobe_args := cached.ffprobe_args,
            ffprobe_runner := cached.ffprobe_runner,
            cwd := cached.cwd }
    else probe_duration_uncached env
  | none => probe_duration_uncached env

/- ===== KeyframeLocator / preflight (src/src-tauri/src/main.rs:1898-1974) ===== -/

/-- Mirror of the Rust `LosslessPreflightResult`. -/
structure LosslessPreflightResult where
  in_time_seconds : ℚ
  nearest_keyframe_seconds : Option ℚ
  next_keyframe_seconds : Option ℚ
  start_shift_seconds : Option ℚ
  out_time_seconds : Option ℚ
  out_prev_keyframe_seconds : Option ℚ
  out_next_keyframe_seconds : Option ℚ
  end_shift_seconds : Option ℚ
deriving Repr, DecidableEq

/-- Environment oracles for one `lossless_preflight_sync` call: the two
validation checks and `find_surrounding_keyframes` as a function from target
time to the millisecond-rounded `(prev, next)` keyframe bracket it reports
(internally that helper runs the windowed inspector searches). -/
structure PreflightEnv where
  input_check : Option String
  bin_check : Option String
  parse_f64 : String → Option ℚ
  keyframes : ℚ → Option ℚ × Option ℚ

/-- Embeds `lossless_preflight_sync` (main.rs:1936).  The second component
of the returned pair lists the target times for which a keyframe search
(`find_surrounding_keyframes`) was actually performed, in order. -/
def lossless_preflight_sync (env : PreflightEnv) (in_time out_time : String) :
    Except String LosslessPreflightResult × List ℚ :=
  match env.input_check with
  | some e => (.error e, [])
  | none =>
  match env.bin_check with
  | some e => (.error e, [])
  | none =>
  match parse_hh_mm_ss_with_millis env.parse_f64 in_time with
  | .error e => (.error e, [])
  | .ok in_seconds =>
  match parse_hh_mm_ss_with_millis env.parse_f64 out_time with
  | .error e => (.error e, [])
  | .ok out_seconds =>
  let inAnalysis : Option ℚ × Option ℚ × List ℚ :=
    if in_seconds ≤ 0 then (some 0, some 0, [])
    else
      let (p, n) := env.keyframes in_seconds
      (p, n, [in_seconds])
  let nearest := inAnalysis.1
  let next := inAnalysis.2.1
  let start_shift_seconds := nearest.map (fun kf =>
    if kf ≤ in_seconds then max (in_seconds - kf) 0 else 0)
  let (out_prev, out_next) := env.keyframes out_seconds
  let end_shift_seconds := out_next.map (fun kf =>
    if kf > out_seconds + 1/1000000 then max (kf - out_seconds) 0 else 0)
  (.ok { in_time_seconds := in_seconds,
         nearest_keyframe_seconds := nearest,
         next_keyframe_seconds := next,
         start_shift_seconds := start_shift_seconds,
         out_time_seconds := some out_seconds,
         out_prev_keyframe_seconds := out_prev,
         out_next_keyframe_seconds := out_next,
         end_shift_seconds := end_shift_seconds },
   inAnalysis.2.2 ++ [out_seconds])

/- ===== TrimPlanner/Executor (src/src-tauri/src/main.rs:2284-2535) ===== -/

/-- Mirror of the Rust `TrimResult`. -/
structure TrimResult where
  output_path : String
  requested_duration_seconds : ℚ
  actual_duration_seconds : Option ℚ
  duration_warning : Option String
deriving Repr, DecidableEq

/-- The two kinds of child process `trim_media` can start: the inspector
(ffprobe, for the rotation probe and the post-trim duration probe) and the
encoder (ffmpeg). -/
inductive Proc where
  | inspector
  | encoder
deriving Repr, DecidableEq

/-- Embeds the leading verbosity/progress/seek/input/duration block of the
encoder argument construction (main.rs:2352-2377).  `mode` is the already
trimmed and lowercased mode string; time arguments are rendered with six
decimals (main.rs:2348-2350). -/
def trim_seek_input_args (mode : String) (in_seconds out_seconds : ℚ)
    (input_path : String) (rotation_degrees : Int) : List String :=
  let in_time_arg := format_fixed6 in_seconds
  let duration_arg := format_fixed6 (out_seconds - in_seconds)
  if mode = "lossless" then
    ["-v", "error", "-progress", "pipe:1",
     "-ss", in_time_arg, "-i", input_path, "-t", duration_arg]
  else
    ["-v", "error", "-progress", "pipe:1", "-accurate_seek", "-ss", in_time_arg]
    ++ (if (rotation_filter_for_degrees rotation_degrees).isSome then
          ["-noautorotate"]
        else [])
    ++ ["-i", input_path, "-t", duration_arg]

/-- Embeds the audio-mapping block (main.rs:2381-2386): a negative selector
disables audio, a non-negative one is addressed as the per-type order. -/
def trim_audio_args (audio_stream_index : Int) : List String :=
  if audio_stream_index < 0 then ["-an"]
  else ["-map", "0:a:" ++ toString audio_stream_index]

/-- Embeds the subtitle-mapping block (main.rs:2388-2393): mapped only for a
non-negative selector outside lossless mode, addressed by raw global index. -/
def trim_subs_args (mode : String) (subtitle_stream_index : Int) : List String :=
  if subtitle_stream_index ≥ 0 ∧ mode ≠ "lossless" then
    ["-map", "0:" ++ toString subtitle_stream_index]
  else []

/-- Embeds the codec/flag block (main.rs:2395-2444): stream copy with
container-dependent timestamp flags in lossless mode, re-encode options in
exact mode. -/
def trim_codec_args (mode : String) (audio_stream_index subtitle_stream_index : Int)
    (output_ext : String) (rotation_degrees : Int) : List String :=
  if mode = "lossless" then
    ["-c", "copy"]
    ++ (if output_ext = "mp4" ∨ output_ext = "m4v" ∨ output_ext = "mov" then
          ["-avoid_negative_ts", "make_zero", "-fflags", "+genpts"]
        else
          ["-copyts", "-avoid_negative_ts", "make_zero"])
    ++ (if rotation_degrees ≠ 0 then
          ["-metadata:s:v:0", "rotate=" ++ toString rotation_degrees]
        else [])
  else
    (match rotation_filter_for_degrees rotation_degrees with
     | some f => ["-vf", f, "-metadata:s:v:0", "rotate=0"]
     | none => [])
    ++ ["-c:v", "libx264", "-crf", "18", "-preset", "veryfast",
        "-pix_fmt", "yuv420p"]
    ++ (if audio_stream_index ≥ 0 then ["-c:a", "copy"] else [])
    ++ (if subtitle_stream_index ≥ 0 then ["-c:s", "copy", "-shortest"] else [])

/-- The full encoder argument list, in the order the source pushes the
blocks: seek/input, video map, audio map, subtitle map, codecs and flags,
overwrite flag and output path. -/
def build_trim_args (mode : String) (in_seconds out_seconds : ℚ)
    (audio_stream_index subtitle_stream_index : Int)
    (input_path output_path output_ext : String)
    (rotation_degrees : Int) : List String :=
  trim_seek_input_args mode in_seconds out_seconds input_path rotation_degrees
  ++ ["-map", "0:v:0"]
  ++ trim_audio_args audio_stream_index
  ++ trim_subs_args mode subtitle_stream_index
  ++ trim_codec_args mode audio_stream_index subtitle_stream_index output_ext rotation_degrees
  ++ ["-y", output_path]

/-- Environment oracles for one `trim_media` call: validation-check
outcomes, the float-parse oracle, the chosen output path and its lowercased
extension (main.rs:2314-2330 plus `Path::extension`), the rotation the
best-effort probe reports (main.rs:2335), whether the encoder spawn
succeeds, its exit status, the output file size `fs::metadata` then reports
(`unwrap_or(0)`, main.rs:2502-2504), the stderr text, and the output
duration the post-trim probe reports. -/
structure TrimEnv where
  input_check : Option String
  bin_check : Option String
  parse_f64 : String → Option ℚ
  output_path : Except String String
  output_ext : String
  rotation_degrees : Int
  encoder_spawn_error : Option String
  encoder_exit_success : Bool
  encoder_stderr : String
  output_size : Nat
  actual_duration : Option ℚ

/-- Result of one modelled `trim_media` call: the returned value, the child
processes whose spawn was reached, in order, and whether the output file was
deleted by the undersized-output check. -/
structure TrimOutcome where
  result : Except String TrimResult
  spawned : List Proc
  deleted_output : Bool
deriving Repr

/-- Embeds `trim_media` (main.rs:2284): validation, output-path choice,
rotation probe, lossless rotation rejection, encoder invocation, exit check,
minimum-size check with cleanup, and the post-trim duration comparison.
Progress-event parsing (main.rs:2462-2483) only feeds the UI event sink and
is not modelled. -/
def trim_media (env : TrimEnv) (in_time out_time mode : String)
    (audio_stream_index subtitle_stream_index : Int)
    (input_path : String) : TrimOutcome :=
  match env.input_check with
  | some e => ⟨.error e, [], false⟩
  | none =>
  match env.bin_check with
  | some e => ⟨.error e, [], false⟩
  | none =>
  match parse_hh_mm_ss_with_millis env.parse_f64 in_time with
  | .error e => ⟨.error e, [], false⟩
  | .ok in_seconds_f64 =>
  match parse_hh_mm_ss_with_millis env.parse_f64 out_time with
  | .error e => ⟨.error e, [], false⟩
  | .ok out_seconds_f64 =>
  if out_seconds_f64 ≤ in_seconds_f64 then
    ⟨.error "OUT must be greater than IN", [], false⟩
  else
  let mode := rust_trim_lowercase mode
  if mode ≠ "lossless" ∧ mode ≠ "exact" then
    ⟨.error "Mode must be \x27lossless\x27 or \x27exact\x27", [], false⟩
  else
  match env.output_path with
  | .error e => ⟨.error e, [], false⟩
  | .ok output_path =>
  let rotation_degrees := env.rotation_degrees
  let spawned0 := [Proc.inspector]
  if mode = "lossless" ∧ rotation_degrees ≠ 0 then
    ⟨.error ("Lossless cannot reliably preserve vertical orientation (input is rotated "
        ++ toString rotation_degrees ++ "°). Use Exact mode."), spawned0, false⟩
  else
  let _args := build_trim_args mode in_seconds_f64 out_seconds_f64
    audio_stream_index subtitle_stream_index input_path output_path
    env.output_ext rotation_degrees
  let spawned1 := spawned0 ++ [Proc.encoder]
  match env.encoder_spawn_error with
  | some e => ⟨.error e, spawned1, false⟩
  | none =>
  if ¬env.encoder_exit_success then
    ⟨.error (if rust_trim env.encoder_stderr = "" then "ffmpeg failed"
             else "ffmpeg failed: " ++ rust_trim env.encoder_stderr), spawned1, false⟩
  else
  if env.output_size < 10000 then
    ⟨.error ("Lossless cut produced invalid output (" ++ toString env.output_size
        ++ " bytes). This usually happens when the cut point is not near a keyframe. Try using \x27Exact\x27 mode instead, or adjust the cut times to be closer to a keyframe."),
     spawned1, true⟩
  else
  let spawned2 := spawned1 ++ [Proc.inspector]
  let requested_duration := out_seconds_f64 - in_seconds_f64
  let duration_warning := env.actual_duration.bind (fun actual =>
    if |actual - requested_duration| > 1/2 then
      some ("Output duration is " ++ format_fixed 1 actual ++ "s (requested "
        ++ format_fixed 1 requested_duration ++ "s, difference "
        ++ format_fixed 1 |actual - requested_duration|
        ++ "s). Lossless cuts can only split on keyframes, so the result may be slightly shorter or longer.")
    else none)
  ⟨.ok { output_path := output_path,
         requested_duration_seconds := requested_duration,
         actual_duration_seconds := env.actual_duration,
         duration_warning := duration_warning },
   spawned2, false⟩

/- ===== Helper lemmas ===== -/

/-- The truncated remainder by 360 is above -360 for every integer. -/
theorem tmod360_lower_bound (a : ℤ) : -360 < a.tmod 360 := by
  match a with
  | .ofNat m =>
    have h : (0 : ℤ) ≤ (Int.ofNat m).tmod 360 :=
      Int.tmod_nonneg 360 (Int.ofNat_nonneg m)
    omega
  | .negSucc m =>
    have h : (Int.negSucc m).tmod 360 = -Int.ofNat (m.succ % 360) := rfl
    have h2 : m.succ % 360 < 360 := Nat.mod_lt _ (by omega)
    rw [h]
    simp only [Int.ofNat_eq_coe]
    omega

/-- Rust's truncated `% 360` followed by the add-360-if-negative fixup is the
mathematical residue `% 360` in `[0, 360)`. -/
theorem tmod360_fixup_eq_emod (d : ℤ) :
    (if d.tmod 360 < 0 then d.tmod 360 + 360 else d.tmod 360) = d % 360 := by
  have hub : d.tmod 360 < 360 := Int.tmod_lt_of_pos d (by norm_num)
  have hlb : -360 < d.tmod 360 := tmod360_lower_bound d
  have hdecomp : d.tmod 360 + 360 * d.tdiv 360 = d := Int.tmod_add_tdiv d 360
  have hmod : d % 360 = (d.tmod 360 + 360 * d.tdiv 360) % 360 := by rw [hdecomp]
  rw [Int.add_mul_emod_self_left] at hmod
  omega

/-- Assigning fresh `order` values positionally (via `enum`) to an
index-sorted list keeps it index-sorted, because the update leaves the index
field unchanged. -/
theorem pairwise_index_enum_assign {α : Type} (idx : α → Int) (upd : Nat × α → α)
    (hupd : ∀ p, idx (upd p) = idx p.2) (l : List α)
    (hl : List.Pairwise (fun a b => idx a ≤ idx b) l) :
    List.Pairwise (fun a b => idx a ≤ idx b) (l.enum.map upd) := by
  rw [List.pairwise_map]
  have h3 : List.Pairwise (fun a b => idx a ≤ idx b) (l.enum.map Prod.snd) := by
    rw [List.enum_map_snd]; exact hl
  have h2 : List.Pairwise (fun p q : Nat × α => idx p.2 ≤ idx q.2) l.enum :=
    (@List.pairwise_map (Nat × α) α Prod.snd (fun a b => idx a ≤ idx b) l.enum).mp h3
  refine h2.imp ?_
  intro p q h
  rw [hupd p, hupd q]
  exact h

/- ===== C8 ===== -/

/-- C8 counterexample: the claim says `normalize_rotation_degrees` returns
the input's nearest member of {0, 90, 180, 270} and collapses every
non-canonical raw value to 0.  At raw value 89 the nearest member is 90 yet
the code returns 0, and at raw value 450 (not a member of the set) the code
returns 90, not 0. -/
theorem normalize_rotation_not_nearest :
    normalize_rotation_degrees 89 = 0 ∧ nearest_canonical_rotation 89 = 90 ∧
    normalize_rotation_degrees 450 = 90 ∧
    (450 : Int) ≠ 0 ∧ (450 : Int) ≠ 90 ∧ (450 : Int) ≠ 180 ∧ (450 : Int) ≠ 270 := by
  refine ⟨by decide, by decide, by decide, by decide, by decide, by decide⟩

/-- C8 amended: `normalize_rotation_degrees` always returns a member of
{0, 90, 180, 270}; the raw value is first reduced modulo 360 into
[0, 360), a reduced value that is canonical is returned unchanged, and any
other reduced value collapses to 0. -/
theorem normalize_rotation_canonical (d : Int) :
    (normalize_rotation_degrees d = 0 ∨ normalize_rotation_degrees d = 90 ∨
     normalize_rotation_degrees d = 180 ∨ normalize_rotation_degrees d = 270) ∧
    normalize_rotation_degrees d =
      (if d % 360 = 90 ∨ d % 360 = 180 ∨ d % 360 = 270 then d % 360 else 0) := by
  have h := tmod360_fixup_eq_emod d
  simp only [normalize_rotation_degrees]
  rw [h]
  constructor
  · split_ifs <;> omega
  · split_ifs <;> omega

/- ===== C2 ===== -/

/-- C2: for every decoded stream list, after classification by
`parse_streams_from_ffprobe_json` the audio partition and the subtitle
partition are each sorted by raw global index ascending and carry `order`
values exactly 0..n-1, and on the concrete scenario
[{index 1, audio}, {index 3, audio}, {index 2, subtitle}] the audio orders
are {1 → 0, 3 → 1} and the subtitle order is {2 → 0}. -/
theorem stream_orders_dense_and_sorted (streams : List RawStream) :
    ((parse_streams_from_ffprobe_json streams).1.map AudioStreamInfo.order
        = (List.range (parse_streams_from_ffprobe_json streams).1.length).map Int.ofNat
      ∧ List.Pairwise (fun a b => a.index ≤ b.index)
          (parse_streams_from_ffprobe_json streams).1)
    ∧ ((parse_streams_from_ffprobe_json streams).2.map SubtitleStreamInfo.order
        = (List.range (parse_streams_from_ffprobe_json streams).2.length).map Int.ofNat
      ∧ List.Pairwise (fun a b => a.index ≤ b.index)
          (parse_streams_from_ffprobe_json streams).2)
    ∧ ((parse_streams_from_ffprobe_json
          [⟨1, "audio", "", none, "und", ""⟩, ⟨3, "audio", "", none, "und", ""⟩,
           ⟨2, "subtitle", "", none, "und", ""⟩]).1.map (fun s => (s.index, s.order))
        = [(1, 0), (3, 1)]
      ∧ (parse_streams_from_ffprobe_json
          [⟨1, "audio", "", none, "und", ""⟩, ⟨3, "audio", "", none, "und", ""⟩,
           ⟨2, "subtitle", "", none, "und", ""⟩]).2.map (fun s => (s.index, s.order))
        = [(2, 0)]) := by
  haveI ht : IsTrans AudioStreamInfo (fun a b => a.index ≤ b.index) :=
    ⟨fun _ _ _ hab hbc => le_trans hab hbc⟩
  haveI hto : IsTotal AudioStreamInfo (fun a b => a.index ≤ b.index) :=
    ⟨fun a b => le_total a.index b.index⟩
  haveI ht2 : IsTrans SubtitleStreamInfo (fun a b => a.index ≤ b.index) :=
    ⟨fun _ _ _ hab hbc => le_trans hab hbc⟩
  haveI hto2 : IsTotal SubtitleStreamInfo (fun a b => a.index ≤ b.index) :=
    ⟨fun a b => le_total a.index b.index⟩
  refine ⟨⟨?_, ?_⟩, ⟨?_, ?_⟩, by decide, by decide⟩
  · simp only [parse_streams_from_ffprobe_json, List.map_map, List.length_map,
      List.enum_length]
    rw [show (AudioStreamInfo.order ∘ fun p : Nat × AudioStreamInfo =>
          { p.2 with order := (p.1 : Int) }) = (Int.ofNat ∘ Prod.fst) from rfl]
    rw [← List.map_map, List.enum_map_fst]
  · simp only [parse_streams_from_ffprobe_json]
    exact pairwise_index_enum_assign AudioStreamInfo.index
      (fun p => { p.2 with order := (p.1 : Int) }) (fun p => rfl) _
      (List.sorted_insertionSort _ _)
  · simp only [parse_streams_from_ffprobe_json, List.map_map, List.length_map,
      List.enum_length]
    rw [show (SubtitleStreamInfo.order ∘ fun p : Nat × SubtitleStreamInfo =>
          { p.2 with order := (p.1 : Int) }) = (Int.ofNat ∘ Prod.fst) from rfl]
    rw [← List.map_map, List.enum_map_fst]
  · simp only [parse_streams_from_ffprobe_json]
    exact pairwise_index_enum_assign SubtitleStreamInfo.index
      (fun p => { p.2 with order := (p.1 : Int) }) (fun p => rfl) _
      (List.sorted_insertionSort _ _)

/- ===== C1 ===== -/

/-- C1: for every lossless trim (the lossless argument builder is reached
only with detected rotation 0, see `trim_lossless_rejects_rotation`), the
encoder argument list places `-ss` with the requested in-time before `-i`,
passes `-t` with the duration out-minus-in rather than an end time, contains
no subtitle mapping regardless of the subtitle selector (the list does not
depend on it), and ends with the MP4-family timestamp flags for
mp4/m4v/mov output extensions but the copyts flag set for all others. -/
theorem trim_lossless_argument_contract (tin tout : ℚ) (asel ssel : Int)
    (input output ext : String) :
    ((build_trim_args "lossless" tin tout asel ssel input output ext 0)[4]? = some "-ss"
      ∧ (build_trim_args "lossless" tin tout asel ssel input output ext 0)[5]?
          = some (format_fixed6 tin)
      ∧ (build_trim_args "lossless" tin tout asel ssel input output ext 0)[6]? = some "-i"
      ∧ (build_trim_args "lossless" tin tout asel ssel input output ext 0)[7]? = some input
      ∧ (build_trim_args "lossless" tin tout asel ssel input output ext 0)[8]? = some "-t"
      ∧ (build_trim_args "lossless" tin tout asel ssel input output ext 0)[9]?
          = some (format_fixed6 (tout - tin)))
    ∧ (∀ s1 s2 : Int,
        build_trim_args "lossless" tin tout asel s1 input output ext 0
          = build_trim_args "lossless" tin tout asel s2 input output ext 0)
    ∧ ((ext = "mp4" ∨ ext = "m4v" ∨ ext = "mov") →
        ∃ pre, build_trim_args "lossless" tin tout asel ssel input output ext 0
          = pre ++ ["-avoid_negative_ts", "make_zero", "-fflags", "+genpts", "-y", output])
    ∧ (¬(ext = "mp4" ∨ ext = "m4v" ∨ ext = "mov") →
        ∃ pre, build_trim_args "lossless" tin tout asel ssel input output ext 0
          = pre ++ ["-copyts", "-avoid_negative_ts", "make_zero", "-y", output]) := by
  refine ⟨⟨rfl, rfl, rfl, rfl, rfl, rfl⟩, ?_, ?_, ?_⟩
  · intro s1 s2
    simp [build_trim_args, trim_subs_args, trim_codec_args]
  · intro h
    refine ⟨trim_seek_input_args "lossless" tin tout input 0 ++ ["-map", "0:v:0"]
      ++ trim_audio_args asel ++ trim_subs_args "lossless" ssel ++ ["-c", "copy"], ?_⟩
    simp [build_trim_args, trim_codec_args, h, List.append_assoc]
  · intro h
    refine ⟨trim_seek_input_args "lossless" tin tout input 0 ++ ["-map", "0:v:0"]
      ++ trim_audio_args asel ++ trim_subs_args "lossless" ssel ++ ["-c", "copy"], ?_⟩
    simp [build_trim_args, trim_codec_args, h, List.append_assoc]

/- ===== C3 ===== -/

/-- C3 counterexample: the claim asserts that for every trim request a
non-negative subtitle selector m is emitted as the generic mapping "0:m",
but a lossless trim with subtitle selector 2 produces an argument list in
which "0:2" never occurs. -/
theorem trim_subtitle_mapping_not_universal :
    "0:2" ∉ build_trim_args "lossless" 1 3 0 2 "a.mkv" "b.mkv" "mkv" 0 := by
  have h1 : format_fixed6 1 = "1.000000" := by
    unfold format_fixed6 format_fixed
    norm_num
    rfl
  have h2 : format_fixed6 (3 - 1) = "2.000000" := by
    unfold format_fixed6 format_fixed
    norm_num
    rfl
  simp only [build_trim_args, trim_seek_input_args, trim_audio_args,
    trim_subs_args, trim_codec_args, h1, h2]
  decide

/-- C3 amended: a negative audio selector disables audio via `-an`; a
non-negative audio selector n is emitted as the type-relative mapping
"0:a:n"; a non-negative subtitle selector m is emitted as the generic
global-index mapping "0:m" in exact mode only (in lossless mode the
argument list is independent of the subtitle selector); a negative subtitle
selector never produces a mapping (the list is the same as for any other
negative selector). -/
theorem trim_stream_selector_mapping (mode : String) (tin tout : ℚ)
    (asel ssel : Int) (input output ext : String) (rot : Int) :
    (asel < 0 → "-an" ∈ build_trim_args mode tin tout asel ssel input output ext rot)
    ∧ (0 ≤ asel → ∃ pre suf,
        build_trim_args mode tin tout asel ssel input output ext rot
          = pre ++ ["-map", "0:a:" ++ toString asel] ++ suf)
    ∧ (0 ≤ ssel → mode = "exact" → ∃ pre suf,
        build_trim_args mode tin tout asel ssel input output ext rot
          = pre ++ ["-map", "0:" ++ toString ssel] ++ suf)
    ∧ (∀ s1 s2 : Int, s1 < 0 → s2 < 0 →
        build_trim_args mode tin tout asel s1 input output ext rot
          = build_trim_args mode tin tout asel s2 input output ext rot)
    ∧ (mode = "lossless" → ∀ s1 s2 : Int,
        build_trim_args mode tin tout asel s1 input output ext rot
          = build_trim_args mode tin tout asel s2 input output ext rot) := by
  refine ⟨?_, ?_, ?_, ?_, ?_⟩
  · intro h
    simp [build_trim_args, trim_audio_args, h]
  · intro h
    refine ⟨trim_seek_input_args mode tin tout input rot ++ ["-map", "0:v:0"],
      trim_subs_args mode ssel
        ++ trim_codec_args mode asel ssel ext rot ++ ["-y", output], ?_⟩
    simp only [build_trim_args, trim_audio_args]
    rw [if_neg (not_lt.mpr h)]
    simp [List.append_assoc]
  · intro hs hm
    subst hm
    refine ⟨trim_seek_input_args "exact" tin tout input rot ++ ["-map", "0:v:0"]
        ++ trim_audio_args asel,
      trim_codec_args "exact" asel ssel ext rot ++ ["-y", output], ?_⟩
    simp only [build_trim_args, trim_subs_args]
    rw [if_pos ⟨hs, by decide⟩]
    simp [List.append_assoc]
  · intro s1 s2 h1 h2
    simp [build_trim_args, trim_subs_args, trim_codec_args,
      not_le.mpr h1, not_le.mpr h2]
  · intro hm s1 s2
    subst hm
    simp [build_trim_args, trim_subs_args, trim_codec_args]

/- ===== C4 ===== -/

/-- C4: `trim_media` requires the parsed out-time to be strictly greater
than the parsed in-time; whenever the parsed out-time is equal to or less
than the parsed in-time the call returns the validation error and no child
process (inspector or encoder) is ever spawned. -/
theorem trim_rejects_empty_or_negative_range (env : TrimEnv)
    (in_time out_time mode : String) (asel ssel : Int) (input_path : String)
    (tIn tOut : ℚ)
    (hin : env.input_check = none) (hbin : env.bin_check = none)
    (hpi : parse_hh_mm_ss_with_millis env.parse_f64 in_time = .ok tIn)
    (hpo : parse_hh_mm_ss_with_millis env.parse_f64 out_time = .ok tOut)
    (hle : tOut ≤ tIn) :
    trim_media env in_time out_time mode asel ssel input_path
      = ⟨.error "OUT must be greater than IN", [], false⟩ := by
  simp [trim_media, hin, hbin, hpi, hpo, hle]

/- ===== C5 ===== -/

/-- C5: a lossless trim whose detected rotation is nonzero fails validation
with an error telling the caller to use Exact mode, after the rotation
probe (inspector) but before the encoder spawn is ever reached. -/
theorem trim_lossless_rejects_rotation (env : TrimEnv)
    (in_time out_time mode : String) (asel ssel : Int)
    (input_path output_path : String) (tIn tOut : ℚ)
    (hin : env.input_check = none) (hbin : env.bin_check = none)
    (hpi : parse_hh_mm_ss_with_millis env.parse_f64 in_time = .ok tIn)
    (hpo : parse_hh_mm_ss_with_millis env.parse_f64 out_time = .ok tOut)
    (hlt : tIn < tOut)
    (hmode : rust_trim_lowercase mode = "lossless")
    (hout : env.output_path = .ok output_path)
    (hrot : env.rotation_degrees ≠ 0) :
    trim_media env in_time out_time mode asel ssel input_path
      = ⟨.error ("Lossless cannot reliably preserve vertical orientation (input is rotated "
          ++ toString env.rotation_degrees ++ "°). Use Exact mode."),
         [Proc.inspector], false⟩
    ∧ Proc.encoder ∉ (trim_media env in_time out_time mode asel ssel input_path).spawned := by
  have h := not_le.mpr hlt
  constructor
  · simp [trim_media, hin, hbin, hpi, hpo, h, hmode, hout, hrot]
  · simp [trim_media, hin, hbin, hpi, hpo, h, hmode, hout, hrot]

/- ===== C6 ===== -/

/-- C6: when the encoder exits successfully but the output file is smaller
than the fixed 10,000-byte minimum, `trim_media` deletes the output file
and returns the error recommending Exact mode; moreover no call whatsoever
returns success with an output smaller than 10,000 bytes. -/
theorem trim_undersized_output_rejected (env : TrimEnv)
    (in_time out_time mode : String) (asel ssel : Int)
    (input_path output_path : String) (tIn tOut : ℚ)
    (hin : env.input_check = none) (hbin : env.bin_check = none)
    (hpi : parse_hh_mm_ss_with_millis env.parse_f64 in_time = .ok tIn)
    (hpo : parse_hh_mm_ss_with_millis env.parse_f64 out_time = .ok tOut)
    (hlt : tIn < tOut)
    (hmode : rust_trim_lowercase mode = "lossless" ∨ rust_trim_lowercase mode = "exact")
    (hout : env.output_path = .ok output_path)
    (hrot : rust_trim_lowercase mode = "exact" ∨ env.rotation_degrees = 0)
    (hspawn : env.encoder_spawn_error = none)
    (hexit : env.encoder_exit_success = true)
    (hsize : env.output_size < 10000) :
    (trim_media env in_time out_time mode asel ssel input_path
      = ⟨.error ("Lossless cut produced invalid output (" ++ toString env.output_size
          ++ " bytes). This usually happens when the cut point is not near a keyframe. Try using \x27Exact\x27 mode instead, or adjust the cut times to be closer to a keyframe."),
        [Proc.inspector, Proc.encoder], true⟩)
    ∧ (∀ (env2 : TrimEnv) (it ot m : String) (a s : Int) (ip : String) (r : TrimResult),
        (trim_media env2 it ot m a s ip).result = .ok r → 10000 ≤ env2.output_size) := by
  have h := not_le.mpr hlt
  constructor
  · rcases hmode with hm | hm
    · rcases hrot with hr | hr
      · rw [hm] at hr
        simp at hr
      · simp [trim_media, hin, hbin, hpi, hpo, h, hm, hout, hr, hspawn, hexit, hsize]
    · simp [trim_media, hin, hbin, hpi, hpo, h, hm, hout, hspawn, hexit, hsize]
  · intro env2 it ot m a s ip r hok
    unfold trim_media at hok
    cases h1 : env2.input_check with
    | some e => simp [h1] at hok
    | none =>
    simp only [h1] at hok
    cases h2 : env2.bin_check with
    | some e => simp [h2] at hok
    | none =>
    simp only [h2] at hok
    cases h3 : parse_hh_mm_ss_with_millis env2.parse_f64 it with
    | error e => simp [h3] at hok
    | ok ti2 =>
    simp only [h3] at hok
    cases h4 : parse_hh_mm_ss_with_millis env2.parse_f64 ot with
    | error e => simp [h4] at hok
    | ok to2 =>
    simp only [h4] at hok
    by_cases h5 : to2 ≤ ti2
    · simp [h5] at hok
    · rw [if_neg h5] at hok
      by_cases h6 : ¬rust_trim_lowercase m = "lossless" ∧ ¬rust_trim_lowercase m = "exact"
      · rw [if_pos h6] at hok
        simp at hok
      · rw [if_neg h6] at hok
        cases h7 : env2.output_path with
        | error e => simp [h7] at hok
        | ok op =>
        simp only [h7] at hok
        by_cases h8 : rust_trim_lowercase m = "lossless" ∧ env2.rotation_degrees ≠ 0
        · rw [if_pos h8] at hok
          simp at hok
        · rw [if_neg h8] at hok
          cases h9 : env2.encoder_spawn_error with
          | some e => simp [h9] at hok
          | none =>
          simp only [h9] at hok
          by_cases h10 : ¬env2.encoder_exit_success
          · rw [if_pos h10] at hok
            simp at hok
          · rw [if_neg h10] at hok
            by_cases h11 : env2.output_size < 10000
            · rw [if_pos h11] at hok
              simp at hok
            · omega

/- ===== C7 ===== -/

/-- C7: a duration-only cache update (as performed by `probe_duration`)
followed by a tracks-only cache update (as performed by `probe_tracks`) on
the same fingerprint yields a record with both the duration and the track
lists present; moreover the tracks update never touches `duration_seconds`
or `has_duration`, and the duration update never touches the stream lists
or their flags. -/
theorem probe_cache_merge_nondestructive (entry0 : Option CachedProbeResult)
    (r : DurationProbeResult) (d : ℚ) (hdur : r.duration_seconds = some d)
    (input_path : String) (audio : List AudioStreamInfo)
    (subs : List SubtitleStreamInfo) (bin ffp cwd : String) :
    ((probe_tracks_cache_update (some (probe_duration_cache_update entry0 r))
        input_path audio subs bin ffp cwd).has_duration = true
      ∧ (probe_tracks_cache_update (some (probe_duration_cache_update entry0 r))
        input_path audio subs bin ffp cwd).duration_seconds = some d
      ∧ (probe_tracks_cache_update (some (probe_duration_cache_update entry0 r))
        input_path audio subs bin ffp cwd).has_tracks = true
      ∧ (probe_tracks_cache_update (some (probe_duration_cache_update entry0 r))
        input_path audio subs bin ffp cwd).has_subtitles = true
      ∧ (probe_tracks_cache_update (some (probe_duration_cache_update entry0 r))
        input_path audio subs bin ffp cwd).audio_streams = audio
      ∧ (probe_tracks_cache_update (some (probe_duration_cache_update entry0 r))
        input_path audio subs bin ffp cwd).subtitle_streams = subs)
    ∧ (∀ e : CachedProbeResult,
        (probe_tracks_cache_update (some e) input_path audio subs bin ffp cwd).duration_seconds
          = e.duration_seconds
        ∧ (probe_tracks_cache_update (some e) input_path audio subs bin ffp cwd).has_duration
          = e.has_duration)
    ∧ (∀ e : CachedProbeResult,
        (probe_duration_cache_update (some e) r).audio_streams = e.audio_streams
        ∧ (probe_duration_cache_update (some e) r).subtitle_streams = e.subtitle_streams
        ∧ (probe_duration_cache_update (some e) r).has_tracks = e.has_tracks
        ∧ (probe_duration_cache_update (some e) r).has_subtitles = e.has_subtitles) := by
  refine ⟨?_, fun e => ⟨rfl, rfl⟩, fun e => ⟨rfl, rfl, rfl, rfl⟩⟩
  simp [probe_duration_cache_update, probe_tracks_cache_update, hdur]

/- ===== C9 ===== -/

/-- C9: a lossless preflight whose parsed in-time is exactly zero reports
nearest keyframe 0, next keyframe 0 and start shift 0, and performs no
keyframe search for the in point (the only search target is the out
point). -/
theorem preflight_zero_in_time (env : PreflightEnv) (in_time out_time : String)
    (tOut : ℚ)
    (hin : env.input_check = none) (hbin : env.bin_check = none)
    (hpi : parse_hh_mm_ss_with_millis env.parse_f64 in_time = .ok 0)
    (hpo : parse_hh_mm_ss_with_millis env.parse_f64 out_time = .ok tOut) :
    (lossless_preflight_sync env in_time out_time).1
      = .ok { in_time_seconds := 0,
              nearest_keyframe_seconds := some 0,
              next_keyframe_seconds := some 0,
              start_shift_seconds := some 0,
              out_time_seconds := some tOut,
              out_prev_keyframe_seconds := (env.keyframes tOut).1,
              out_next_keyframe_seconds := (env.keyframes tOut).2,
              end_shift_seconds := (env.keyframes tOut).2.map (fun kf =>
                if kf > tOut + 1/1000000 then max (kf - tOut) 0 else 0) }
    ∧ (lossless_preflight_sync env in_time out_time).2 = [tOut] := by
  constructor
  · simp [lossless_preflight_sync, hin, hbin, hpi, hpo]
  · simp [lossless_preflight_sync, hin, hbin, hpi, hpo]

/- ===== C10 ===== -/

/-- C10: when the fingerprint key hits a cache entry with a cached duration,
`probe_duration` returns the cached result without consulting the
input-file or bin-directory checks: the result is the cached projection and
is unchanged under arbitrary replacement of both check outcomes and of the
fresh-probe outcome. -/
theorem probe_duration_cache_hit_skips_validation (env : DurationProbeEnv)
    (c : CachedProbeResult)
    (hc : env.cache env.cache_key = some c)
    (hd : c.has_duration = true) :
    probe_duration env
      = .ok { input_path := c.input_path,
              duration_seconds := c.duration_seconds,
              ffmpeg_bin_dir_used := c.ffmpeg_bin_dir_used,
              ffprobe_path := c.ffprobe_path,
              ffprobe_args := c.ffprobe_args,
              ffprobe_runner := c.ffprobe_runner,
              cwd := c.cwd }
    ∧ (∀ (ic bc : Option String) (fr : Except String DurationProbeResult),
        probe_duration { env with input_check := ic, bin_check := bc, fresh := fr }
          = probe_duration env) := by
  constructor
  · simp [probe_duration, hc, hd]
  · intro ic bc fr
    simp [probe_duration, hc, hd]

/- ===== Concrete data for the witnesses ===== -/

/-- Concrete seconds-parse oracle used by the witnesses below. -/
def demo_parse_f64 : String → Option ℚ := fun s =>
  if s = "00" then some 0
  else if s = "05" then some 5
  else if s = "06" then some 6
  else none

/-- The demo oracle parses "00:00:00" to 0 seconds. -/
theorem demo_parse_eval_00 :
    parse_hh_mm_ss_with_millis demo_parse_f64 "00:00:00" = .ok 0 := by
  have h : parse_hh_mm_ss_with_millis demo_parse_f64 "00:00:00"
      = .ok (((0 : ℕ) : ℚ) * 3600 + ((0 : ℕ) : ℚ) * 60 + 0) := by rfl
  rw [h]
  norm_num

/-- The demo oracle parses "00:00:05" to 5 seconds. -/
theorem demo_parse_eval_05 :
    parse_hh_mm_ss_with_millis demo_parse_f64 "00:00:05" = .ok 5 := by
  have h : parse_hh_mm_ss_with_millis demo_parse_f64 "00:00:05"
      = .ok (((0 : ℕ) : ℚ) * 3600 + ((0 : ℕ) : ℚ) * 60 + 5) := by rfl
  rw [h]
  norm_num

/-- The demo oracle parses "00:00:06" to 6 seconds. -/
theorem demo_parse_eval_06 :
    parse_hh_mm_ss_with_millis demo_parse_f64 "00:00:06" = .ok 6 := by
  have h : parse_hh_mm_ss_with_millis demo_parse_f64 "00:00:06"
      = .ok (((0 : ℕ) : ℚ) * 3600 + ((0 : ℕ) : ℚ) * 60 + 6) := by rfl
  rw [h]
  norm_num

/-- A trim environment on the all-checks-pass path with zero rotation and a
healthy-sized output. -/
def demo_trim_env : TrimEnv :=
  { input_check := none, bin_check := none, parse_f64 := demo_parse_f64,
    output_path := .ok "clip.mp4", output_ext := "mp4", rotation_degrees := 0,
    encoder_spawn_error := none, encoder_exit_success := true,
    encoder_stderr := "", output_size := 20000, actual_duration := none }

/- ===== Witnesses ===== -/

/-- Witness for C1 at a concrete lossless trim: seek argument in place, the
MP4-family flag tail for an mp4 output, and the copyts tail for an mkv
output. -/
theorem trim_lossless_argument_contract_witness :
    (build_trim_args "lossless" 1 3 0 2 "a.mp4" "b.mp4" "mp4" 0)[4]? = some "-ss"
    ∧ (∃ pre, build_trim_args "lossless" 1 3 0 2 "a.mp4" "b.mp4" "mp4" 0
        = pre ++ ["-avoid_negative_ts", "make_zero", "-fflags", "+genpts", "-y", "b.mp4"])
    ∧ (∃ pre, build_trim_args "lossless" 1 3 0 2 "a.mkv" "b.mkv" "mkv" 0
        = pre ++ ["-copyts", "-avoid_negative_ts", "make_zero", "-y", "b.mkv"]) :=
  ⟨(trim_lossless_argument_contract 1 3 0 2 "a.mp4" "b.mp4" "mp4").1.1,
   (trim_lossless_argument_contract 1 3 0 2 "a.mp4" "b.mp4" "mp4").2.2.1 (Or.inl rfl),
   (trim_lossless_argument_contract 1 3 0 2 "a.mkv" "b.mkv" "mkv").2.2.2 (by decide)⟩

/-- Witness for C3 at concrete exact-mode trims: `-an` for a negative audio
selector, the per-type audio mapping for selector 1, and the global-index
subtitle mapping for selector 2. -/
theorem trim_stream_selector_mapping_witness :
    ("-an" ∈ build_trim_args "exact" 1 3 (-1) (-1) "a.mp4" "b.mp4" "mp4" 0)
    ∧ (∃ pre suf, build_trim_args "exact" 1 3 1 2 "a.mp4" "b.mp4" "mp4" 0
        = pre ++ ["-map", "0:a:" ++ toString (1 : Int)] ++ suf)
    ∧ (∃ pre suf, build_trim_args "exact" 1 3 1 2 "a.mp4" "b.mp4" "mp4" 0
        = pre ++ ["-map", "0:" ++ toString (2 : Int)] ++ suf) :=
  ⟨(trim_stream_selector_mapping "exact" 1 3 (-1) (-1) "a.mp4" "b.mp4" "mp4" 0).1 (by decide),
   (trim_stream_selector_mapping "exact" 1 3 1 2 "a.mp4" "b.mp4" "mp4" 0).2.1 (by decide),
   (trim_stream_selector_mapping "exact" 1 3 1 2 "a.mp4" "b.mp4" "mp4" 0).2.2.1 (by decide) rfl⟩

/-- Witness for C4: a concrete trim request with out-time equal to in-time
is rejected with no child process spawned. -/
theorem trim_rejects_empty_or_negative_range_witness :
    trim_media demo_trim_env "00:00:05" "00:00:05" "lossless" 0 (-1) "in.mp4"
      = ⟨.error "OUT must be greater than IN", [], false⟩ :=
  trim_rejects_empty_or_negative_range demo_trim_env "00:00:05" "00:00:05"
    "lossless" 0 (-1) "in.mp4" 5 5 rfl rfl demo_parse_eval_05 demo_parse_eval_05
    le_rfl

/-- Witness for C5: a concrete lossless trim of a 90°-rotated input fails
with the use-Exact-mode error before the encoder spawn. -/
theorem trim_lossless_rejects_rotation_witness :
    trim_media { demo_trim_env with rotation_degrees := 90 }
        "00:00:05" "00:00:06" "lossless" 0 (-1) "in.mp4"
      = ⟨.error ("Lossless cannot reliably preserve vertical orientation (input is rotated "
          ++ toString (90 : Int) ++ "°). Use Exact mode."), [Proc.inspector], false⟩
    ∧ Proc.encoder ∉ (trim_media { demo_trim_env with rotation_degrees := 90 }
        "00:00:05" "00:00:06" "lossless" 0 (-1) "in.mp4").spawned :=
  trim_lossless_rejects_rotation { demo_trim_env with rotation_degrees := 90 }
    "00:00:05" "00:00:06" "lossless" 0 (-1) "in.mp4" "clip.mp4" 5 6
    rfl rfl demo_parse_eval_05 demo_parse_eval_06 (by norm_num) (by decide) rfl
    (by decide)

/-- Witness for C6: a concrete lossless trim whose encoder exits cleanly but
writes only 42 bytes is rejected, the file deleted. -/
theorem trim_undersized_output_rejected_witness :
    trim_media { demo_trim_env with output_size := 42 }
        "00:00:05" "00:00:06" "lossless" 0 (-1) "in.mp4"
      = ⟨.error ("Lossless cut produced invalid output (" ++ toString (42 : Nat)
          ++ " bytes). This usually happens when the cut point is not near a keyframe. Try using \x27Exact\x27 mode instead, or adjust the cut times to be closer to a keyframe."),
        [Proc.inspector, Proc.encoder], true⟩ :=
  (trim_undersized_output_rejected { demo_trim_env with output_size := 42 }
    "00:00:05" "00:00:06" "lossless" 0 (-1) "in.mp4" "clip.mp4" 5 6
    rfl rfl demo_parse_eval_05 demo_parse_eval_06 (by norm_num)
    (Or.inl (by decide)) rfl (Or.inr rfl) rfl rfl (by decide)).1

/-- Witness for C7: merging a duration of 7 seconds then empty track lists
leaves both present on a fresh cache entry. -/
theorem probe_cache_merge_nondestructive_witness :
    (probe_tracks_cache_update (some (probe_duration_cache_update none
        { input_path := "v.mp4", duration_seconds := some 7,
          ffmpeg_bin_dir_used := "bin", ffprobe_path := "ffprobe",
          ffprobe_args := [], ffprobe_runner := "direct", cwd := "" }))
      "v.mp4" [] [] "bin" "ffprobe" "").has_duration = true
    ∧ (probe_tracks_cache_update (some (probe_duration_cache_update none
        { input_path := "v.mp4", duration_seconds := some 7,
          ffmpeg_bin_dir_used := "bin", ffprobe_path := "ffprobe",
          ffprobe_args := [], ffprobe_runner := "direct", cwd := "" }))
      "v.mp4" [] [] "bin" "ffprobe" "").duration_seconds = some 7
    ∧ (probe_tracks_cache_update (some (probe_duration_cache_update none
        { input_path := "v.mp4", duration_seconds := some 7,
          ffmpeg_bin_dir_used := "bin", ffprobe_path := "ffprobe",
          ffprobe_args := [], ffprobe_runner := "direct", cwd := "" }))
      "v.mp4" [] [] "bin" "ffprobe" "").has_tracks = true :=
  ⟨(probe_cache_merge_nondestructive none _ 7 rfl "v.mp4" [] [] "bin" "ffprobe" "").1.1,
   (probe_cache_merge_nondestructive none _ 7 rfl "v.mp4" [] [] "bin" "ffprobe" "").1.2.1,
   (probe_cache_merge_nondestructive none _ 7 rfl "v.mp4" [] [] "bin" "ffprobe" "").1.2.2.1⟩

/-- Preflight environment used by the C9 witness: every keyframe search
reports the bracket (4, 6). -/
def demo_preflight_env : PreflightEnv :=
  { input_check := none, bin_check := none, parse_f64 := demo_parse_f64,
    keyframes := fun _ => (some 4, some 6) }

/-- Witness for C9: a concrete preflight with in-time 00:00:00 reports the
zero bracket with zero shift and searches only the out point. -/
theorem preflight_zero_in_time_witness :
    (lossless_preflight_sync demo_preflight_env "00:00:00" "00:00:05").1
      = .ok { in_time_seconds := 0,
              nearest_keyframe_seconds := some 0,
              next_keyframe_seconds := some 0,
              start_shift_seconds := some 0,
              out_time_seconds := some 5,
              out_prev_keyframe_seconds := (demo_preflight_env.keyframes 5).1,
              out_next_keyframe_seconds := (demo_preflight_env.keyframes 5).2,
              end_shift_seconds := (demo_preflight_env.keyframes 5).2.map (fun kf =>
                if kf > 5 + 1/1000000 then max (kf - 5) 0 else 0) }
    ∧ (lossless_preflight_sync demo_preflight_env "00:00:00" "00:00:05").2 = [5] :=
  preflight_zero_in_time demo_preflight_env "00:00:00" "00:00:05" 5
    rfl rfl demo_parse_eval_00 demo_parse_eval_05

/-- Cache entry used by the C10 witness. -/
def demo_cached_entry : CachedProbeResult :=
  { input_path := "v.mp4", has_duration := true, has_tracks := false,
    has_subtitles := false, duration_seconds := some 7, audio_streams := [],
    subtitle_streams := [], ffmpeg_bin_dir_used := "bin",
    ffprobe_path := "ffprobe", ffprobe_args := [], ffprobe_runner := "direct",
    cwd := "" }

/-- Probe environment used by the C10 witness: the fingerprint hits the
cache while both validation checks would fail and the fresh path would
error. -/
def demo_duration_env : DurationProbeEnv :=
  { cache := fun k => if k = "fp" then some demo_cached_entry else none,
    cache_key := "fp",
    input_check := some "Input file does not exist",
    bin_check := some "FFmpeg bin folder does not exist",
    fresh := .error "unused" }

/-- Witness for C10: the concrete cache hit returns the cached duration even
though the input-file check and the bin-directory check would both fail. -/
theorem probe_duration_cache_hit_skips_validation_witness :
    probe_duration demo_duration_env
      = .ok { input_path := "v.mp4", duration_seconds := some 7,
              ffmpeg_bin_dir_used := "bin", ffprobe_path := "ffprobe",
              ffprobe_args := [], ffprobe_runner := "direct", cwd := "" } :=
  (probe_duration_cache_hit_skips_validation demo_duration_env demo_cached_entry
    (by rfl) rfl).1
